import Mathlib

/-!
# Verification of the vue3-component-library plugin

A shallow embedding of the component library: two compiled component
definitions (`script$1` / `script` in the bundled build, written here as
`script1` / `script`), the `components` registry object, and the plugin
`install` method that iterates the registry with a `for (const prop in
components)` loop guarded by `hasOwnProperty` and calls
`Vue.component(component.name, component)` for each entry.

The host framework handle (`Vue`) is modelled as a capability whose single
operation `component` (registration) may either succeed, transforming host
state, or throw, modelled with `Except`.  A JavaScript object literal is
modelled as an association list in property insertion order (the `for..in`
iteration order for non-integer string keys); property access
`components[prop]` is `List.lookup`, and `hasOwnProperty prop` holds exactly
when the lookup succeeds.
-/

/-- A virtual DOM element node as produced by Vue's `createElementBlock`:
a tag name and a list of props/attributes. -/
structure VNode where
  tag : String
  props : List (String × String)
deriving DecidableEq

/-- `createElementBlock(tag, props)` from the vue runtime: builds one element
node.  (`openBlock()` only primes the runtime's block-tracking stack and does
not affect the returned node; the comma expression
`(openBlock(), createElementBlock(...))` evaluates to the element block.)
The one-argument call `createElementBlock("textarea")` passes `[]` props. -/
def createElementBlock (tag : String) (props : List (String × String)) : VNode :=
  { tag := tag, props := props }

/-- A component definition object: a declared `name`, a compiled `render`
function taking the six arguments Vue passes
(`_ctx, _cache, $props, $setup, $data, $options` — arbitrary values, hence a
type parameter `α`), and the optional `__file` dev metadata the bundler
attaches. -/
structure ComponentDef (α : Type) where
  name : String
  render : α → α → α → α → α → α → VNode
  file : Option String

/-- `_hoisted_1 = { type: "text" }` from the bundled build. -/
def hoisted_1 : List (String × String) := [("type", "text")]

/-- `render$1` from the bundled build: the compiled render function of
`InputText`, returning `(openBlock(), createElementBlock("input", _hoisted_1))`. -/
def render1 (α : Type) (_ctx _cache _props _setup _data _opts : α) : VNode :=
  createElementBlock "input" hoisted_1

/-- `render` from the bundled build: the compiled render function of
`InputTextarea`, returning `(openBlock(), createElementBlock("textarea"))`. -/
def render (α : Type) (_ctx _cache _props _setup _data _opts : α) : VNode :=
  createElementBlock "textarea" []

/-- `script$1` from the bundled build: the `InputText` component definition,
with `script$1.render = render$1` and `script$1.__file = "src/InputText.vue"`. -/
def script1 (α : Type) : ComponentDef α :=
  { name := "InputText", render := render1 α, file := some "src/InputText.vue" }

/-- `script` from the bundled build: the `InputTextarea` component definition,
with `script.render = render` and `script.__file = "src/InputTextarea.vue"`. -/
def script (α : Type) : ComponentDef α :=
  { name := "InputTextarea", render := render α, file := some "src/InputTextarea.vue" }

/-- `var components = { InputTextarea: script, InputText: script$1 }` from the
bundled build: the registry object, as an association list in property
insertion order (the `for..in` order for these non-integer keys). -/
def components (α : Type) : List (String × ComponentDef α) :=
  [("InputTextarea", script α), ("InputText", script1 α)]

/-- The host framework handle passed to `install`: a capability exposing the
single registration operation `Vue.component(name, definition)`, which mutates
host state `σ` or throws an `ε` (JavaScript exceptions are not caught by the
installer, so registration is fallible from the installer's viewpoint). -/
structure VueHost (α σ ε : Type) where
  component : String → ComponentDef α → σ → Except ε σ

/-- The state visible to the installer's loop: the `components` registry
object it reads and the host's registration state it writes through
`Vue.component`. -/
structure LoopState (α σ : Type) where
  components : List (String × ComponentDef α)
  host : σ

/-- The body of `install`'s `for (const prop in components)` loop, iterated
over the list of property keys:
for each `prop`, if `components.hasOwnProperty(prop)` (the lookup succeeds),
read `const component = components[prop]` and call
`Vue.component(component.name, component)`; a thrown exception exits the loop
and propagates (`Except.map` rethrows it unchanged). -/
def installStep {α σ ε : Type} (Vue : VueHost α σ ε) (st : LoopState α σ)
    (prop : String) : Except ε (LoopState α σ) :=
  match st.components.lookup prop with
  | some component =>
    (Vue.component component.name component st.host).map fun h2 => { st with host := h2 }
  | none => .ok st

/-- The `for (const prop in components)` loop itself: run the body once per
property key, in order; a body that throws short-circuits the remaining
iterations (`Except.bind` on an error rethrows it unchanged). -/
def installGo {α σ ε : Type} (Vue : VueHost α σ ε) :
    List String → LoopState α σ → Except ε (LoopState α σ)
  | [], st => .ok st
  | prop :: rest, st => (installStep Vue st prop).bind (installGo Vue rest)

/-- `install (Vue) { for (const prop in components) { ... } }` over an
arbitrary registry: iterate the registry's own enumerable property keys in
insertion order.  The JavaScript function returns `undefined`; the `Except`
value carries the final state of its side effects. -/
def installOver {α σ ε : Type} (Vue : VueHost α σ ε) (st : LoopState α σ) :
    Except ε (LoopState α σ) :=
  installGo Vue (st.components.map Prod.fst) st

/-- The bundled build's `plugin.install(Vue)`: run the loop over the bundled
`components` registry. -/
def plugin.install {σ ε : Type} (α : Type) (Vue : VueHost α σ ε) (host : σ) :
    Except ε (LoopState α σ) :=
  installOver Vue ⟨components α, host⟩

/-- Modelled from the spec: `src/InputText.vue` is not present under `src/`;
per the spec it is a stateless component named `InputText` whose template is
the single node `<input type="text" />`. -/
def InputText (α : Type) : ComponentDef α :=
  { name := "InputText"
    render := fun _ _ _ _ _ _ => createElementBlock "input" [("type", "text")]
    file := none }

/-- Modelled from the spec: `src/InputTextarea.vue` is not present under
`src/`; per the spec it is a stateless component named `InputTextarea` whose
template is the single node `<textarea />`. -/
def InputTextarea (α : Type) : ComponentDef α :=
  { name := "InputTextarea"
    render := fun _ _ _ _ _ _ => createElementBlock "textarea" []
    file := none }

/-- `src/components.js`: `export default { InputTextarea, InputText }`, the
source registry object in property insertion order. -/
def srcComponents (α : Type) : List (String × ComponentDef α) :=
  [("InputTextarea", InputTextarea α), ("InputText", InputText α)]

/-- `src/index.js`: the source `plugin.install(Vue)` — the identical loop over
the source `components` registry imported from `./components`. -/
def srcPlugin.install {σ ε : Type} (α : Type) (Vue : VueHost α σ ε) (host : σ) :
    Except ε (LoopState α σ) :=
  installOver Vue ⟨srcComponents α, host⟩

/-- A mock host that records every registration call `(name, definition)` in
order and never throws. -/
def traceVue (α : Type) : VueHost α (List (String × ComponentDef α)) Empty :=
  ⟨fun n c calls => .ok (calls ++ [(n, c)])⟩

/-- The sequence of `Vue.component` calls one bundled `install` invocation
makes, observed through the recording mock host. -/
def installCalls (α : Type) : List (String × ComponentDef α) :=
  match plugin.install α (traceVue α) [] with
  | .ok st => st.host
  | .error e => e.elim

/-- The sequence of `Vue.component` calls one source `install` invocation
makes, observed through the recording mock host. -/
def srcInstallCalls (α : Type) : List (String × ComponentDef α) :=
  match srcPlugin.install α (traceVue α) [] with
  | .ok st => st.host
  | .error e => e.elim

/-- A mock host that records registration calls but throws on the component
name `bad`; the error value carries the offending name together with the
calls recorded before the throw. -/
def failVue (α : Type) (bad : String) :
    VueHost α (List (String × ComponentDef α))
      (String × List (String × ComponentDef α)) :=
  ⟨fun n c calls => if n = bad then .error (n, calls) else .ok (calls ++ [(n, c)])⟩

/-! ## General lemmas about the install loop -/

/-- `Except.bind` applied to a success runs the continuation. -/
theorem exceptBind_ok {ε A B : Type} (a : A) (f : A → Except ε B) :
    (Except.ok a : Except ε A).bind f = f a := rfl

/-- `Except.bind` applied to a failure rethrows it unchanged. -/
theorem exceptBind_error {ε A B : Type} (e : ε) (f : A → Except ε B) :
    (Except.error e : Except ε A).bind f = .error e := rfl

/-- When the looked-up property is present, the loop body is exactly one
registration call `Vue.component(component.name, component)`. -/
theorem installStep_of_lookup {α σ ε : Type} (Vue : VueHost α σ ε)
    (st : LoopState α σ) (prop : String) (c : ComponentDef α)
    (hl : st.components.lookup prop = some c) :
    installStep Vue st prop =
      (Vue.component c.name c st.host).map fun h2 => { st with host := h2 } := by
  simp [installStep, hl]

/-- Splitting the iterated key list splits the loop: the loop over
`l₁ ++ l₂` is the loop over `l₁` followed, on success, by the loop over
`l₂` (a thrown exception in the first part short-circuits). -/
theorem installGo_append {α σ ε : Type} (Vue : VueHost α σ ε)
    (l₁ l₂ : List String) (st : LoopState α σ) :
    installGo Vue (l₁ ++ l₂) st = (installGo Vue l₁ st).bind (installGo Vue l₂) := by
  induction l₁ generalizing st with
  | nil => rfl
  | cons p rest ih =>
    simp only [List.cons_append, installGo]
    cases installStep Vue st p with
    | ok st2 =>
      rw [exceptBind_ok, exceptBind_ok]
      exact ih st2
    | error e => rw [exceptBind_error, exceptBind_error, exceptBind_error]

/-- One loop-body execution never writes to the `components` registry. -/
theorem installStep_components {α σ ε : Type} (Vue : VueHost α σ ε)
    (st st' : LoopState α σ) (prop : String)
    (h : installStep Vue st prop = .ok st') : st'.components = st.components := by
  unfold installStep at h
  cases hl : st.components.lookup prop with
  | none =>
    rw [hl] at h
    cases h
    rfl
  | some c =>
    rw [hl] at h
    simp only at h
    cases hr : Vue.component c.name c st.host with
    | ok h2 =>
      rw [hr] at h
      cases h
      rfl
    | error e =>
      rw [hr] at h
      cases h

/-- The loop never writes to the `components` registry: whenever it
terminates normally, the registry in the final state is the registry it
started from. -/
theorem installGo_components {α σ ε : Type} (Vue : VueHost α σ ε)
    (props : List String) (st st' : LoopState α σ)
    (h : installGo Vue props st = .ok st') : st'.components = st.components := by
  induction props generalizing st with
  | nil =>
    simp only [installGo, Except.ok.injEq] at h
    rw [← h]
  | cons p rest ih =>
    simp only [installGo] at h
    cases hstep : installStep Vue st p with
    | ok st2 =>
      rw [hstep, exceptBind_ok] at h
      rw [ih st2 h, installStep_components Vue st st2 p hstep]
    | error e =>
      rw [hstep, exceptBind_error] at h
      cases h

/-- In a registry whose keys are pairwise distinct (as in any JavaScript
object literal), every entry's key looks up to that entry's value. -/
theorem lookup_self_of_nodup {β : Type} :
    ∀ (E : List (String × β)), (E.map Prod.fst).Nodup →
      ∀ q ∈ E, E.lookup q.1 = some q.2 := by
  intro E
  induction E with
  | nil => intro _ q hq; cases hq
  | cons a rest ih =>
    intro hnd q hq
    rw [List.map_cons, List.nodup_cons] at hnd
    rcases List.mem_cons.mp hq with heq | hmem
    · subst heq
      simp [List.lookup]
    · have hne : q.1 ≠ a.1 := by
        intro hcontra
        exact hnd.1 (hcontra ▸ List.mem_map_of_mem Prod.fst hmem)
      have hbeq : (q.1 == a.1) = false := beq_eq_false_iff_ne.mpr hne
      obtain ⟨k, v⟩ := a
      simp only [List.lookup, hbeq]
      exact ih hnd.2 q hmem

/-- Running the loop over the keys of a block `pre` of entries, each of whose
keys looks up to its own value, through the recording mock host: every entry
is registered, in order, under its definition's `name` field, and the
registry is untouched. -/
theorem installGo_traceVue {α : Type} :
    ∀ (pre : List (String × ComponentDef α))
      (E s : List (String × ComponentDef α)),
      (∀ q ∈ pre, E.lookup q.1 = some q.2) →
      installGo (traceVue α) (pre.map Prod.fst) ⟨E, s⟩ =
        .ok ⟨E, s ++ pre.map (fun q => (q.2.name, q.2))⟩ := by
  intro pre
  induction pre with
  | nil => intro E s _; simp [installGo]
  | cons q rest ih =>
    intro E s hl
    have hstep : installStep (traceVue α) ⟨E, s⟩ q.1 =
        .ok ⟨E, s ++ [(q.2.name, q.2)]⟩ := by
      rw [installStep_of_lookup (traceVue α) ⟨E, s⟩ q.1 q.2
          (hl q (List.mem_cons_self q rest))]
      rfl
    simp only [List.map_cons, installGo, hstep, exceptBind_ok]
    rw [ih E (s ++ [(q.2.name, q.2)]) (fun r hr => hl r (List.mem_cons_of_mem q hr))]
    simp

/-- Like `installGo_traceVue` but through the throwing mock host: as long as
no entry in the block carries the bad name, the loop records every entry and
succeeds. -/
theorem installGo_failVue {α : Type} (bad : String) :
    ∀ (pre : List (String × ComponentDef α))
      (E s : List (String × ComponentDef α)),
      (∀ q ∈ pre, E.lookup q.1 = some q.2) →
      (∀ q ∈ pre, q.2.name ≠ bad) →
      installGo (failVue α bad) (pre.map Prod.fst) ⟨E, s⟩ =
        .ok ⟨E, s ++ pre.map (fun q => (q.2.name, q.2))⟩ := by
  intro pre
  induction pre with
  | nil => intro E s _ _; simp [installGo]
  | cons q rest ih =>
    intro E s hl hb
    have hstep : installStep (failVue α bad) ⟨E, s⟩ q.1 =
        .ok ⟨E, s ++ [(q.2.name, q.2)]⟩ := by
      rw [installStep_of_lookup (failVue α bad) ⟨E, s⟩ q.1 q.2
          (hl q (List.mem_cons_self q rest))]
      show ((if q.2.name = bad then Except.error (q.2.name, s)
             else .ok (s ++ [(q.2.name, q.2)])).map
            fun h2 => ({ components := E, host := h2 } : LoopState α _)) = _
      rw [if_neg (hb q (List.mem_cons_self q rest))]
      rfl
    simp only [List.map_cons, installGo, hstep, exceptBind_ok]
    rw [ih E (s ++ [(q.2.name, q.2)])
        (fun r hr => hl r (List.mem_cons_of_mem q hr))
        (fun r hr => hb r (List.mem_cons_of_mem q hr))]
    simp

/-! ## The claims -/

/-- C1: for every component definition in the `components` registry, one
`install(host)` invocation calls the host's register operation exactly once
with that component's declared name and definition, and the total number of
register calls equals the number of registry keys: the recorded call
sequence is exactly one call per registry entry, the calls are pairwise
distinct, and its length is the registry's size. -/
theorem install_registers_each_component_exactly_once (α : Type) :
    installCalls α = (components α).map (fun q => (q.2.name, q.2)) ∧
    List.Pairwise (fun a b => a ≠ b) (installCalls α) ∧
    (installCalls α).length = (components α).length := by
  refine ⟨rfl, ?_, rfl⟩
  have h : installCalls α = [("InputTextarea", script α), ("InputText", script1 α)] := rfl
  rw [h]
  exact List.Pairwise.cons
    (fun b hb => by
      rw [List.mem_singleton] at hb
      subst hb
      exact fun hcontra =>
        absurd (show ("InputTextarea" : String) = "InputText" from congrArg Prod.fst hcontra)
          (by decide))
    (List.Pairwise.cons (fun b hb => nomatch hb) List.Pairwise.nil)

/-- C2: with the concrete two-entry registry, `install(hostMock)` makes
exactly the register calls `("InputTextarea", script)` and
`("InputText", script$1)`, each once and nothing else; the two definitions
are distinct, `InputText`'s render yields one `<input type="text">` element
and `InputTextarea`'s render yields one `<textarea>` element. -/
theorem install_concrete_registry_calls (α : Type) :
    installCalls α = [("InputTextarea", script α), ("InputText", script1 α)] ∧
    script α ≠ script1 α ∧
    (∀ a b c d e f : α,
      (script1 α).render a b c d e f = { tag := "input", props := [("type", "text")] }) ∧
    (∀ a b c d e f : α,
      (script α).render a b c d e f = { tag := "textarea", props := [] }) :=
  ⟨rfl,
   fun hcontra =>
     absurd (show ("InputTextarea" : String) = "InputText" from congrArg ComponentDef.name hcontra)
       (by decide),
   fun _ _ _ _ _ _ => rfl,
   fun _ _ _ _ _ _ => rfl⟩

/-- C3: `install` registers every entry under the definition's own `name`
field, never under the registry key: over any registry with pairwise
distinct keys (as any object literal has), the recorded calls are
`(entry.definition.name, entry.definition)` for each entry in order — the
key component of the entry does not occur in the call. -/
theorem install_uses_name_field_not_key {α : Type}
    (entries s : List (String × ComponentDef α))
    (hnd : (entries.map Prod.fst).Nodup) :
    installOver (traceVue α) ⟨entries, s⟩ =
      .ok ⟨entries, s ++ entries.map (fun q => (q.2.name, q.2))⟩ :=
  installGo_traceVue entries entries s (lookup_self_of_nodup entries hnd)

/-- A registry whose single key `"SomeKey"` differs from its definition's
declared name `"OtherName"`: the key/name divergence the spec flags. -/
def divergentRegistry : List (String × ComponentDef Unit) :=
  [("SomeKey",
    { name := "OtherName"
      render := fun _ _ _ _ _ _ => createElementBlock "div" []
      file := none })]

/-- Witness for C3 at a registry where key and name diverge: the single
register call is made under `"OtherName"`, not `"SomeKey"`. -/
theorem install_uses_name_field_not_key_witness :
    (divergentRegistry.map Prod.fst).Nodup ∧
    ("SomeKey" : String) ≠ "OtherName" ∧
    installOver (traceVue Unit) ⟨divergentRegistry, []⟩ =
      .ok ⟨divergentRegistry, [] ++ divergentRegistry.map (fun q => (q.2.name, q.2))⟩ :=
  ⟨by decide, by decide,
   install_uses_name_field_not_key divergentRegistry [] (by decide)⟩

/-- C4: if the host's register operation throws while `install` is
processing some key, `install` returns that very exception to its caller:
the failure is neither caught, inspected, translated, nor swallowed. -/
theorem install_propagates_host_exception {α σ ε : Type} (Vue : VueHost α σ ε)
    (st st₁ : LoopState α σ) (props₁ props₂ : List String) (p : String)
    (c : ComponentDef α) (e : ε)
    (hkeys : st.components.map Prod.fst = props₁ ++ p :: props₂)
    (hpre : installGo Vue props₁ st = .ok st₁)
    (hlook : st₁.components.lookup p = some c)
    (hthrow : Vue.component c.name c st₁.host = .error e) :
    installOver Vue st = .error e := by
  unfold installOver
  rw [hkeys, installGo_append, hpre, exceptBind_ok]
  show (installStep Vue st₁ p).bind (installGo Vue props₂) = .error e
  rw [installStep_of_lookup Vue st₁ p c hlook, hthrow]
  rfl

/-- Witness for C4: a host that throws on `"InputText"` makes the plugin's
install over the concrete registry rethrow that exact error. -/
theorem install_propagates_host_exception_witness :
    ((components Unit).map Prod.fst = ["InputTextarea"] ++ "InputText" :: []) ∧
    (installGo (failVue Unit "InputText") ["InputTextarea"] ⟨components Unit, []⟩ =
      .ok ⟨components Unit, [("InputTextarea", script Unit)]⟩) ∧
    ((components Unit).lookup "InputText" = some (script1 Unit)) ∧
    ((failVue Unit "InputText").component (script1 Unit).name (script1 Unit)
        [("InputTextarea", script Unit)] =
      .error ("InputText", [("InputTextarea", script Unit)])) ∧
    installOver (failVue Unit "InputText") ⟨components Unit, []⟩ =
      .error ("InputText", [("InputTextarea", script Unit)]) :=
  ⟨rfl, rfl, rfl, rfl,
   install_propagates_host_exception (failVue Unit "InputText")
     ⟨components Unit, []⟩ ⟨components Unit, [("InputTextarea", script Unit)]⟩
     ["InputTextarea"] [] "InputText" (script1 Unit)
     ("InputText", [("InputTextarea", script Unit)]) rfl rfl rfl rfl⟩

/-- C5: the render operations are pure constants: for any values of the six
render arguments they produce the same single element node every time —
`render$1` one `<input type="text">`, `render` one `<textarea>` — and they
are exactly the registry definitions' render fields. -/
theorem render_operations_pure (α : Type) (a b c d e f a2 b2 c2 d2 e2 f2 : α) :
    (script1 α).render = render1 α ∧
    (script α).render = render α ∧
    render1 α a b c d e f = { tag := "input", props := [("type", "text")] } ∧
    render1 α a b c d e f = render1 α a2 b2 c2 d2 e2 f2 ∧
    render α a b c d e f = { tag := "textarea", props := [] } ∧
    render α a b c d e f = render α a2 b2 c2 d2 e2 f2 :=
  ⟨rfl, rfl, rfl, rfl, rfl, rfl⟩

/-- C6: there is no double-installation guard: from any prior host
registration state `s` — in particular the state left by a first install —
`plugin.install` performs the identical full sequence of register calls
again, and composing two installs records that sequence twice. -/
theorem install_has_no_double_install_guard (α : Type)
    (s : List (String × ComponentDef α)) :
    plugin.install α (traceVue α) s = .ok ⟨components α, s ++ installCalls α⟩ ∧
    (plugin.install α (traceVue α) []).bind
        (fun st => plugin.install α (traceVue α) st.host) =
      .ok ⟨components α, installCalls α ++ installCalls α⟩ := by
  constructor
  · show installGo (traceVue α) ((components α).map Prod.fst) ⟨components α, s⟩ = _
    rw [installGo_traceVue (components α) (components α) s
        (lookup_self_of_nodup (components α)
          (show (["InputTextarea", "InputText"] : List String).Nodup by decide))]
    rfl
  · rfl

/-- C7: the frame property of `install`: it never writes to the
`components` registry — whenever the loop returns normally, the registry
in the final state is exactly the registry it started from; only the host
component of the state changes. -/
theorem install_leaves_registry_unchanged {α σ ε : Type} (Vue : VueHost α σ ε)
    (st st' : LoopState α σ) (h : installOver Vue st = .ok st') :
    st'.components = st.components :=
  installGo_components Vue (st.components.map Prod.fst) st st' h

/-- Witness for C7 at the concrete registry and the recording host. -/
theorem install_leaves_registry_unchanged_witness :
    (installOver (traceVue Unit) ⟨components Unit, []⟩ =
      .ok ⟨components Unit, installCalls Unit⟩) ∧
    (⟨components Unit, installCalls Unit⟩ : LoopState Unit _).components =
      (⟨components Unit, ([] : List (String × ComponentDef Unit))⟩ : LoopState Unit _).components :=
  ⟨rfl, install_leaves_registry_unchanged (traceVue Unit) _ _ rfl⟩

/-- C8: `install` aborts on a thrown registration: when the host throws on
the name of entry `f`, every entry of the block `e₁` preceding `f` in
iteration order has been registered at the moment of the throw (they are
exactly the recorded calls carried by the error) and no entry of the block
`e₂` following `f` is ever registered. -/
theorem install_aborts_on_exception {α : Type} (bad : String)
    (e₁ e₂ : List (String × ComponentDef α)) (f : String × ComponentDef α)
    (hnd : ((e₁ ++ f :: e₂).map Prod.fst).Nodup)
    (hpre : ∀ q ∈ e₁, q.2.name ≠ bad)
    (hbad : f.2.name = bad) :
    installOver (failVue α bad) ⟨e₁ ++ f :: e₂, []⟩ =
      .error (bad, e₁.map (fun q => (q.2.name, q.2))) := by
  unfold installOver
  show installGo (failVue α bad) ((e₁ ++ f :: e₂).map Prod.fst) ⟨e₁ ++ f :: e₂, []⟩ = _
  rw [List.map_append, installGo_append]
  rw [installGo_failVue bad e₁ (e₁ ++ f :: e₂) []
      (fun q hq => lookup_self_of_nodup _ hnd q (List.mem_append_left _ hq)) hpre]
  rw [exceptBind_ok]
  show (installStep (failVue α bad)
      ⟨e₁ ++ f :: e₂, [] ++ e₁.map (fun q => (q.2.name, q.2))⟩ f.1).bind
      (installGo (failVue α bad) (e₂.map Prod.fst)) = _
  rw [installStep_of_lookup _ _ _ f.2
      (lookup_self_of_nodup _ hnd f (List.mem_append_right _ (List.mem_cons_self f e₂)))]
  rw [hbad]
  simp only [failVue]
  rw [if_pos trivial]
  rfl

/-- Witness for C8: with a host throwing on `"InputText"` (the second entry
in iteration order), the first entry is registered and recorded, the loop
aborts, and nothing after is registered. -/
theorem install_aborts_on_exception_witness :
    ((([("InputTextarea", script Unit)] ++
        ("InputText", script1 Unit) :: []).map Prod.fst).Nodup) ∧
    (∀ q ∈ [("InputTextarea", script Unit)], q.2.name ≠ "InputText") ∧
    (("InputText", script1 Unit).2.name = "InputText") ∧
    installOver (failVue Unit "InputText")
        ⟨[("InputTextarea", script Unit)] ++ ("InputText", script1 Unit) :: [], []⟩ =
      .error ("InputText",
        [("InputTextarea", script Unit)].map (fun q => (q.2.name, q.2))) :=
  ⟨by decide, by decide, rfl,
   install_aborts_on_exception "InputText" [("InputTextarea", script Unit)] []
     ("InputText", script1 Unit) (by decide) (by decide) rfl⟩

/-- C9: in the shipped registries the key/name divergence does not occur:
every registry key equals its definition's declared `name` field, in both
the bundled registry and the source registry, and the declared names are
pairwise distinct. -/
theorem registry_keys_equal_declared_names (α : Type) :
    (components α).map Prod.fst = (components α).map (fun q => q.2.name) ∧
    ((components α).map (fun q => q.2.name)).Nodup ∧
    (srcComponents α).map Prod.fst = (srcComponents α).map (fun q => q.2.name) ∧
    ((srcComponents α).map (fun q => q.2.name)).Nodup := by
  refine ⟨rfl, ?_, rfl, ?_⟩
  · show (["InputTextarea", "InputText"] : List String).Nodup
    decide
  · show (["InputTextarea", "InputText"] : List String).Nodup
    decide

/-- C10: the bundled build's plugin and the source plugin are behaviorally
equivalent: one install invocation of each produces the same sequence of
register calls — the same registered names and structurally equal
definitions (same declared `name`, same render behavior; the bundled
definitions additionally carry only the `__file` dev metadata). -/
theorem dist_and_source_install_equivalent (α : Type) :
    (installCalls α).map (fun q => (q.1, q.2.name, q.2.render)) =
      (srcInstallCalls α).map (fun q => (q.1, q.2.name, q.2.render)) ∧
    (installCalls α).length = (srcInstallCalls α).length :=
  ⟨rfl, rfl⟩
